import Mathlib

/-!
Verification of the real-time synchronization subsystem of the coinchan
discussion-board server (package `server` / `websockets`): the message
codec, the connection actor's frame dispatch, the open-post buffer, the
origin check, the backlog HTTP endpoint and connection teardown.

Messages are modelled as lists of characters (the byte content of text
frames), Go integers as `Nat`/`Int` with explicit bounds where the source
checks them, and fallible operations as `Option`/`Except`.
-/

namespace Coinchan

/-! ## Decimal parsing and formatting (strconv) -/

/-- Whether a character is an ASCII decimal digit, as `strconv` requires. -/
def isDigitChar (c : Char) : Bool := '0' ≤ c && c ≤ '9'

/-- Numeric value of an ASCII digit character. -/
def digitVal (c : Char) : Nat := c.toNat - '0'.toNat

/-- Accumulating left fold of decimal digits into a natural number. -/
def digitsToNatAux (acc : Nat) : List Char → Nat
  | [] => acc
  | c :: cs => digitsToNatAux (acc * 10 + digitVal c) cs

/-- Parse a non-empty all-digit character list as a decimal natural number;
`none` on the empty list or any non-digit character, as `strconv.ParseUint`
with base 10 behaves before its range check. -/
def parseDecimalNat (cs : List Char) : Option Nat :=
  if cs ≠ [] ∧ cs.all isDigitChar then some (digitsToNatAux 0 cs) else none

/-- Embedding of `strconv.ParseUint(s, 10, bitSize)`: decimal digits only,
value at most `2 ^ bitSize - 1`. -/
def goParseUint (cs : List Char) (bitSize : Nat) : Option Nat :=
  match parseDecimalNat cs with
  | none => none
  | some n => if n ≤ 2 ^ bitSize - 1 then some n else none

/-- ASCII digit character of a value below ten. -/
def digitChar (n : Nat) : Char := Char.ofNat ('0'.toNat + n)

/-- Fuel-driven core of decimal formatting, least significant digit first
into the accumulator. -/
def natToDigitsAux : Nat → Nat → List Char → List Char
  | 0, _, acc => acc
  | fuel + 1, n, acc =>
    let acc2 := digitChar (n % 10) :: acc
    let n2 := n / 10
    if n2 = 0 then acc2 else natToDigitsAux fuel n2 acc2

/-- Embedding of `strconv.FormatUint(n, 10)`: decimal digit characters of
`n`, no padding, `"0"` for zero. -/
def natToDigits (n : Nat) : List Char := natToDigitsAux (n + 1) n []

/-! ## Message codec (`encodeMessage` and the decode steps of
`handleMessage`/`runHandler`) -/

/-- Embedding of `encodeMessage`: the two-character ASCII decimal type tag
(left-padded with `0` when the tag has one digit, truncated by the `copy`
into the fixed two-byte prefix otherwise) followed by the serialized
payload bytes. The JSON serialization of the payload is the `data`
argument; `json.Marshal` errors are outside this path. -/
def encodeMessage (typ : Nat) (data : List Char) : List Char :=
  let typeString := natToDigits typ
  if typeString.length = 1 then '0' :: typeString ++ data
  else typeString.take 2 ++ data

/-- The two-character type-tag prefix that `encodeMessage` writes. -/
def encHeader (typ : Nat) : List Char :=
  let typeString := natToDigits typ
  if typeString.length = 1 then '0' :: typeString
  else typeString.take 2

/-- Decoding as `Client.handleMessage` and `Client.runHandler` perform it:
fail when the frame is shorter than two bytes or the first two bytes do not
parse as a decimal unsigned 8-bit integer; otherwise the type is that
integer and the payload is the rest of the frame. -/
def decodeFrame (msg : List Char) : Option (Nat × List Char) :=
  if msg.length < 2 then none
  else
    match goParseUint (msg.take 2) 8 with
    | none => none
    | some typ => some (typ, msg.drop 2)

theorem encodeMessage_eq_header (typ : Nat) (data : List Char) :
    encodeMessage typ data = encHeader typ ++ data := by
  unfold encodeMessage encHeader
  by_cases h : (natToDigits typ).length = 1 <;> simp [h]

theorem encHeader_spec :
    ∀ typ < 100, (encHeader typ).length = 2 ∧
      goParseUint (encHeader typ) 8 = some typ := by
  decide

theorem take_drop_two {α : Type} (cs : List α) (h : cs.length = 2)
    (data : List α) :
    (cs ++ data).take 2 = cs ∧ (cs ++ data).drop 2 = data := by
  match cs, h with
  | [a, b], _ => simp

/-- C1: for every message type between 0 and 99 and every payload
serialization, decoding the frame produced by `encodeMessage` — first two
bytes as the ASCII decimal type tag, rest as the payload, as
`handleMessage`/`runHandler` do — returns exactly the original type and
payload. -/
theorem encodeMessage_decodeFrame_roundtrip (typ : Nat) (h : typ ≤ 99)
    (data : List Char) :
    decodeFrame (encodeMessage typ data) = some (typ, data) := by
  have hspec := encHeader_spec typ (by omega)
  rw [encodeMessage_eq_header]
  have htd := take_drop_two (encHeader typ) hspec.1 data
  unfold decodeFrame
  rw [if_neg (by simp [hspec.1])]
  rw [htd.1, htd.2, hspec.2]

/-- Concrete instance of the codec round-trip at type 42 and payload
`"hi"`. -/
theorem encodeMessage_decodeFrame_roundtrip_witness :
    decodeFrame (encodeMessage 42 ['h', 'i']) = some (42, ['h', 'i']) :=
  encodeMessage_decodeFrame_roundtrip 42 (by decide) ['h', 'i']

/-! ## Connection actor: frame dispatch (`Client.handleMessage`,
`Client.runHandler`, the receive arm of `Client.listenerLoop`) -/

/-- The gorilla/websocket transport frame class for text frames
(`websocket.TextMessage`). -/
def textMessage : Nat := 1

/-- The gorilla/websocket transport frame class for binary frames
(`websocket.BinaryMessage`). -/
def binaryMessage : Nat := 2

/-- Modelled from the spec: the `messageSynchronise` type tag of the closed
message-type enum, whose definition is not under the sources at hand; the
theorems below depend only on it being a fixed tag. -/
def messageSynchronise : Nat := 30

/-- Modelled from the spec: the `messageResynchronise` type tag of the
closed message-type enum, whose definition is not under the sources at
hand. -/
def messageResynchronise : Nat := 31

/-- Modelled from the spec: the `messageInvalid` type tag used for the
invalid-message notice sent on abnormal teardown. -/
def messageInvalid : Nat := 0

/-- Errors a `Client` loop can terminate with: `errInvalidFrame`,
`errInvalidPayload`, a client-side `*websocket.CloseError` carrying a
status code, or any other error carrying its text. -/
inductive GoErr where
  | invalidFrame (s : String)
  | invalidPayload (msg : List Char)
  | closeErr (code : Nat)
  | other (text : String)
deriving DecidableEq

/-- The `Error()` string of each error, as the source methods render it. -/
def goErrText : GoErr → String
  | .invalidFrame s => s
  | .invalidPayload msg => "invalid message: " ++ String.mk msg
  | .closeErr _ => "websocket: close error"
  | .other t => t

/-- Outcome of `Client.handleMessage` before any handler runs: either a
rejection with an error, or the decision to call `runHandler` with a type
tag and the whole frame. -/
inductive Dispatch where
  | reject (e : GoErr)
  | run (typ : Nat) (msg : List Char)
deriving DecidableEq

/-- Embedding of `Client.handleMessage`: non-text transport frames are
rejected first, then frames shorter than two bytes, then frames whose
first two bytes do not parse as a decimal unsigned 8-bit integer, then — on
an unsynced client — any type other than synchronise/resynchronise; all
remaining frames are passed to `runHandler`. -/
def handleMessage (synced : Bool) (msgType : Nat) (msg : List Char) :
    Dispatch :=
  if msgType ≠ textMessage then .reject (.invalidFrame "only text frames allowed")
  else if msg.length < 2 then .reject (.invalidPayload msg)
  else
    match goParseUint (msg.take 2) 8 with
    | none => .reject (.invalidPayload msg)
    | some typ =>
      if synced = false ∧ typ ≠ messageSynchronise ∧ typ ≠ messageResynchronise
      then .reject (.invalidPayload msg)
      else .run typ msg

/-- Embedding of `Client.runHandler`: look the type up in the handlers
table; an unregistered type is `errInvalidPayload`, otherwise the handler
runs on the frame minus its two-byte tag. -/
def runHandler (handlers : Nat → Option (List Char → Except GoErr Unit))
    (typ : Nat) (msg : List Char) : Except GoErr Unit :=
  match handlers typ with
  | none => .error (.invalidPayload msg)
  | some h => h (msg.drop 2)

/-- Embedding of `Client.handleMessage` end to end, with the handlers
table abstracted as a function. -/
def handleMessageE (handlers : Nat → Option (List Char → Except GoErr Unit))
    (synced : Bool) (msgType : Nat) (msg : List Char) : Except GoErr Unit :=
  match handleMessage synced msgType msg with
  | .reject e => .error e
  | .run typ m => runHandler handlers typ m

/-- A message as delivered by `receiverLoop` to the listener loop. -/
structure ReceivedMessage where
  typ : Nat
  msg : List Char
  err : Option GoErr

/-- What one iteration of `Client.listenerLoop` does with a received
message: keep looping, or return (which tears the connection down via
`Clients.Remove` and `closeConnections`). -/
inductive LoopAction where
  | keepLooping
  | exitWith (err : Option GoErr)
deriving DecidableEq

/-- The receive arm of `Client.listenerLoop`: a receive-side error is
returned as is, a `handleMessage` error is returned, otherwise the loop
continues. A returned error terminates the connection. -/
def listenerReceiveStep
    (handlers : Nat → Option (List Char → Except GoErr Unit))
    (synced : Bool) (m : ReceivedMessage) : LoopAction :=
  match m.err with
  | some e => .exitWith (some e)
  | none =>
    match handleMessageE handlers synced m.typ m.msg with
    | .error e => .exitWith (some e)
    | .ok _ => .keepLooping

/-- C2: on an unsynced client, a well-formed text frame whose type tag is
neither synchronise nor resynchronise is rejected (the out-of-sequence
rejection, raised as `errInvalidPayload`) before any handler is looked up
or run, and the rejection makes the listener loop exit, terminating the
connection. -/
theorem handleMessage_unsynced_rejects
    (handlers : Nat → Option (List Char → Except GoErr Unit))
    (typ : Nat) (msg : List Char)
    (h1 : 2 ≤ msg.length) (h2 : goParseUint (msg.take 2) 8 = some typ)
    (h3 : typ ≠ messageSynchronise) (h4 : typ ≠ messageResynchronise) :
    handleMessage false textMessage msg = .reject (.invalidPayload msg) ∧
    listenerReceiveStep handlers false ⟨textMessage, msg, none⟩ =
      .exitWith (some (.invalidPayload msg)) := by
  have hm : handleMessage false textMessage msg = .reject (.invalidPayload msg) := by
    unfold handleMessage
    rw [if_neg (by simp [textMessage]), if_neg (by omega), h2]
    simp [h3, h4]
  exact ⟨hm, by simp [listenerReceiveStep, handleMessageE, hm]⟩

/-- Concrete instance of the unsynced rejection: frame `"99"` (type tag 99)
on an unsynced client, with an empty handlers table. -/
theorem handleMessage_unsynced_rejects_witness :
    handleMessage false textMessage ['9', '9'] =
      .reject (.invalidPayload ['9', '9']) ∧
    listenerReceiveStep (fun _ => none) false ⟨textMessage, ['9', '9'], none⟩ =
      .exitWith (some (.invalidPayload ['9', '9'])) :=
  handleMessage_unsynced_rejects (fun _ => none) 99 ['9', '9']
    (by decide) (by decide) (by decide) (by decide)

/-- C4: a text frame shorter than two bytes, or whose first two bytes are
not both ASCII decimal digits, is rejected with `errInvalidPayload` (the
malformed-frame rejection) in any sync state, and the rejection makes the
listener loop exit, terminating the connection. -/
theorem handleMessage_malformed
    (handlers : Nat → Option (List Char → Except GoErr Unit))
    (synced : Bool) (msg : List Char)
    (h : msg.length < 2 ∨ (msg.take 2).all isDigitChar = false) :
    handleMessage synced textMessage msg = .reject (.invalidPayload msg) ∧
    listenerReceiveStep handlers synced ⟨textMessage, msg, none⟩ =
      .exitWith (some (.invalidPayload msg)) := by
  have hm : handleMessage synced textMessage msg = .reject (.invalidPayload msg) := by
    unfold handleMessage
    rw [if_neg (by simp [textMessage])]
    rcases h with h | h
    · rw [if_pos h]
    · by_cases hlen : msg.length < 2
      · rw [if_pos hlen]
      · rw [if_neg hlen]
        have hparse : goParseUint (msg.take 2) 8 = none := by
          unfold goParseUint parseDecimalNat
          rw [if_neg (by simp [h])]
        rw [hparse]
  exact ⟨hm, by simp [listenerReceiveStep, handleMessageE, hm]⟩

/-- Concrete instance of the malformed-frame rejection: frame `"x1"` whose
first byte is not a digit, on a synced client. -/
theorem handleMessage_malformed_witness :
    handleMessage true textMessage ['x', '1'] =
      .reject (.invalidPayload ['x', '1']) ∧
    listenerReceiveStep (fun _ => none) true ⟨textMessage, ['x', '1'], none⟩ =
      .exitWith (some (.invalidPayload ['x', '1'])) :=
  handleMessage_malformed (fun _ => none) true ['x', '1'] (Or.inr (by decide))

/-- C5: a transport frame whose class is not text is rejected with
`errInvalidFrame` before the payload bytes are examined — the rejection is
the same for every payload — so no handler runs, and the listener loop
exits, terminating the connection. -/
theorem handleMessage_nontext
    (handlers : Nat → Option (List Char → Except GoErr Unit))
    (synced : Bool) (msgType : Nat) (msg : List Char)
    (h : msgType ≠ textMessage) :
    handleMessage synced msgType msg =
      .reject (.invalidFrame "only text frames allowed") ∧
    listenerReceiveStep handlers synced ⟨msgType, msg, none⟩ =
      .exitWith (some (.invalidFrame "only text frames allowed")) := by
  have hm : handleMessage synced msgType msg =
      .reject (.invalidFrame "only text frames allowed") := by
    unfold handleMessage
    rw [if_pos h]
  exact ⟨hm, by simp [listenerReceiveStep, handleMessageE, hm]⟩

/-- Concrete instance of the non-text rejection: a binary frame carrying a
valid-looking payload on a synced client. -/
theorem handleMessage_nontext_witness :
    handleMessage true binaryMessage ['3', '0'] =
      .reject (.invalidFrame "only text frames allowed") ∧
    listenerReceiveStep (fun _ => none) true ⟨binaryMessage, ['3', '0'], none⟩ =
      .exitWith (some (.invalidFrame "only text frames allowed")) :=
  handleMessage_nontext (fun _ => none) true binaryMessage ['3', '0'] (by decide)

/-! ## Open-post buffer (`openPost`, `Client.hasPost`) -/

/-- The post buffer a client is composing into: post id, parent thread id,
creation time (Unix seconds), board, accumulated body and its length. -/
structure OpenPost where
  id : Int
  op : Int
  time : Int
  board : String
  body : List Char
  bodyLength : Nat
deriving DecidableEq

/-- Errors of open-post access. `errNoPostOpen` is the error the source
returns when no post is open; `postExpired` is, modelled from the spec, the
failure produced when the buffer outlived the 29-minute ceiling (the
`closePost` helper that produces it is not under the sources at hand). -/
inductive PostErr where
  | noPostOpen
  | postExpired
deriving DecidableEq

/-- Modelled from the spec: `closePost` flushes the accumulated body to the
canonical store and clears the local open-post state, leaving the zero
buffer whose id zero means no post is open. -/
def closePost (_ : OpenPost) : OpenPost :=
  { id := 0, op := 0, time := 0, board := "", body := [], bodyLength := 0 }

/-- Embedding of `Client.hasPost` at access time `now` (Unix seconds): id
zero fails with `errNoPostOpen`; a post older than 29 minutes is implicitly
closed and the access fails (`postExpired`, with `closePost` modelled from
the spec); otherwise the post is available unchanged. Returns the updated
buffer alongside the result, staying a pure function of the access time —
expiry is checked lazily here, not by any timer. -/
def hasPost (p : OpenPost) (now : Int) : OpenPost × Except PostErr Bool :=
  if p.id = 0 then (p, .error .noPostOpen)
  else if p.time < now - 29 * 60 then (closePost p, .error .postExpired)
  else (p, .ok true)

/-- C3: access with no post open (id zero) fails with `errNoPostOpen`; an
open post past the 29-minute ceiling fails with the expiry error and is
implicitly closed — the resulting buffer has id zero, so every later access
fails with `errNoPostOpen` and no further append is accepted. -/
theorem hasPost_spec (p : OpenPost) (now : Int) :
    (p.id = 0 → hasPost p now = (p, .error .noPostOpen)) ∧
    (p.id ≠ 0 → p.time < now - 29 * 60 →
      (hasPost p now).2 = .error .postExpired ∧
      (hasPost p now).1.id = 0 ∧
      ∀ later : Int, (hasPost (hasPost p now).1 later).2 = .error .noPostOpen) := by
  constructor
  · intro h0
    unfold hasPost
    rw [if_pos h0]
  · intro h0 hexp
    unfold hasPost
    rw [if_neg h0, if_pos hexp]
    refine ⟨rfl, rfl, fun later => ?_⟩
    simp [closePost]

/-- Concrete instance of both access failures: no post open at id zero, and
a post created at time 0 accessed at 29 minutes plus one second. -/
theorem hasPost_spec_witness :
    hasPost ⟨0, 0, 0, "", [], 0⟩ 100 = (⟨0, 0, 0, "", [], 0⟩, .error .noPostOpen) ∧
    (hasPost ⟨7, 1, 0, "b", [], 0⟩ (29 * 60 + 1)).2 = .error .postExpired ∧
    (hasPost (hasPost ⟨7, 1, 0, "b", [], 0⟩ (29 * 60 + 1)).1 (29 * 60 + 2)).2 =
      .error .noPostOpen :=
  ⟨(hasPost_spec ⟨0, 0, 0, "", [], 0⟩ 100).1 rfl,
   ((hasPost_spec ⟨7, 1, 0, "b", [], 0⟩ (29 * 60 + 1)).2 (by decide) (by decide)).1,
   ((hasPost_spec ⟨7, 1, 0, "b", [], 0⟩ (29 * 60 + 1)).2 (by decide) (by decide)).2.2
     (29 * 60 + 2)⟩

/-! ## Origin check (`CheckOrigin`, `Handler`) -/

/-- The result of `net/url.Parse` that `CheckOrigin` inspects: the host
component. -/
structure GoURL where
  host : String
deriving DecidableEq

/-- Embedding of `CheckOrigin`, with `url.Parse` abstracted as a function:
an empty `Origin` header is accepted; otherwise the origin must parse and
its host must equal the configured allowed origin. -/
def CheckOrigin (parseURL : String → Option GoURL) (allowedOrigin : String)
    (origin : String) : Bool :=
  if origin = "" then true
  else
    match parseURL origin with
    | none => false
    | some u => u.host = allowedOrigin

/-- Embedding of the `Handler` control flow around the upgrade: the
upgrader runs `CheckOrigin` during the handshake, and `Handler` returns
without creating a client when the upgrade fails, so a client actor is
created exactly when the origin check passes. -/
def handlerClientCreated (parseURL : String → Option GoURL)
    (allowedOrigin : String) (origin : String) : Bool :=
  if CheckOrigin parseURL allowedOrigin origin then true else false

/-- C6: `CheckOrigin` accepts exactly when the `Origin` header is empty or
parses as a URL whose host equals the configured allowed origin; every
other request is rejected, and then no client actor is created. -/
theorem CheckOrigin_spec (parseURL : String → Option GoURL)
    (allowedOrigin : String) (origin : String) :
    (CheckOrigin parseURL allowedOrigin origin = true ↔
      origin = "" ∨ ∃ u, parseURL origin = some u ∧ u.host = allowedOrigin) ∧
    handlerClientCreated parseURL allowedOrigin origin =
      CheckOrigin parseURL allowedOrigin origin := by
  constructor
  · unfold CheckOrigin
    by_cases h0 : origin = ""
    · simp [h0]
    · rw [if_neg h0]
      cases hp : parseURL origin with
      | none => simp [h0, hp]
      | some u => simp [h0, hp, eq_comm]
  · unfold handlerClientCreated
    by_cases h : CheckOrigin parseURL allowedOrigin origin <;> simp [h]

/-! ## Close idempotence (`Client.Close`) -/

/-- Go semantics of `close(ch)` on the `close` channel, with the channel
state as a closed flag: closing an already-closed channel panics (`none`);
otherwise the channel becomes closed. -/
def goCloseChannel (closed : Bool) : Option Bool :=
  if closed then none else some true

/-- Embedding of `Client.Close`: the `select` receives from the close
channel when it is already closed (a no-op) and only otherwise takes the
`default` branch that closes it. -/
def ClientClose (closed : Bool) : Option Bool :=
  if closed then some closed else goCloseChannel closed

/-- Iteration of `n` successive `Client.Close` calls, propagating a
panic. -/
def iterClose : Nat → Bool → Option Bool
  | 0, s => some s
  | n + 1, s => (ClientClose s).bind (iterClose n)

/-- C9: `Client.Close` never panics and always leaves the channel closed —
in particular on an already-closed channel it changes nothing, unlike a
bare channel close, which would panic — so any positive number of `Close`
calls equals a single one. -/
theorem ClientClose_idempotent :
    (∀ s : Bool, ClientClose s = some true) ∧
    ClientClose true = some true ∧
    goCloseChannel true = none ∧
    ∀ (n : Nat) (s : Bool), iterClose (n + 1) s = ClientClose s := by
  have hall : ∀ s : Bool, ClientClose s = some true := by decide
  have hiter : ∀ n : Nat, iterClose n true = some true := by
    intro n
    induction n with
    | zero => rfl
    | succ k ih => simp [iterClose, hall, ih]
  refine ⟨hall, hall true, rfl, fun n s => ?_⟩
  simp [iterClose, hall, hiter]

/-! ## Last-N query parameter (`detectLastN`) -/

/-- Embedding of `strconv.Atoi` (`ParseInt` base 10 on 64-bit int): an
optional single sign, then at least one decimal digit, value within the
signed 64-bit range. -/
def goAtoi (s : String) : Option Int :=
  match s.data with
  | '+' :: rest =>
    (parseDecimalNat rest).bind fun n =>
      if n < 2 ^ 63 then some (n : Int) else none
  | '-' :: rest =>
    (parseDecimalNat rest).bind fun n =>
      if n ≤ 2 ^ 63 then some (-(n : Int)) else none
  | cs =>
    (parseDecimalNat cs).bind fun n =>
      if n < 2 ^ 63 then some (n : Int) else none

/-- Embedding of `detectLastN` on the value of the `last` query parameter
(the empty string when absent): the parsed value when parsing succeeds and
the value is at most 500, otherwise 0. -/
def detectLastN (query : String) : Int :=
  if query ≠ "" then
    match goAtoi query with
    | some lastN => if lastN ≤ 500 then lastN else 0
    | none => 0
  else 0

/-- C10: `detectLastN` returns the parsed value of the `last` parameter
whenever it parses as a decimal integer no greater than 500 — zero and
negative values included — and returns 0 when the parameter is absent,
unparseable, or greater than 500. -/
theorem detectLastN_spec (query : String) (n : Int) :
    (goAtoi query = some n → n ≤ 500 → detectLastN query = n) ∧
    (query = "" → detectLastN query = 0) ∧
    (goAtoi query = none → detectLastN query = 0) ∧
    (goAtoi query = some n → 500 < n → detectLastN query = 0) := by
  refine ⟨fun hp hle => ?_, fun h0 => ?_, fun hp => ?_, fun hp hgt => ?_⟩
  · unfold detectLastN
    by_cases h0 : query = ""
    · rw [h0] at hp
      simp [goAtoi, parseDecimalNat, show ("" : String).data = [] from rfl] at hp
    · simp [h0, hp, hle]
  · simp [detectLastN, h0]
  · unfold detectLastN
    by_cases h0 : query = "" <;> simp [h0, hp]
  · unfold detectLastN
    by_cases h0 : query = ""
    · rw [h0] at hp
      simp [goAtoi, parseDecimalNat, show ("" : String).data = [] from rfl] at hp
    · simp [h0, hp, not_le.mpr hgt]

/-- Concrete instances of `detectLastN`: a negative value is returned as
is, an absent parameter and an over-limit value yield 0. -/
theorem detectLastN_spec_witness :
    detectLastN "-5" = -5 ∧ detectLastN "" = 0 ∧ detectLastN "abc" = 0 ∧
    detectLastN "501" = 0 :=
  ⟨(detectLastN_spec "-5" (-5)).1 (by decide) (by decide),
   (detectLastN_spec "" 0).2.1 rfl,
   (detectLastN_spec "abc" 0).2.2.1 (by decide),
   (detectLastN_spec "501" 501).2.2.2 (by decide) (by decide)⟩

/-! ## Backlog HTTP endpoint (`serveBacklog`) -/

/-- Embedding of `strconv.ParseUint(s, 10, 64)`: decimal digits only, value
within unsigned 64 bits. -/
def goParseUint64 (cs : List Char) : Option Nat := goParseUint cs 64

/-- An HTTP response as `serveBacklog` produces it: a 400 on a parameter
parse failure, otherwise a 200 with an `ETag` header, a content type and
the body bytes. -/
inductive HTTPResult where
  | badRequest
  | ok (etag : List Char) (contentType : String) (body : List Char)
deriving DecidableEq

/-- The stored replication log of a thread, as the `threads` table holds
it: `none` when the thread does not exist. -/
def threadLog (threads : Nat → Option (List (List Char))) (t : Nat) :
    List (List Char) :=
  (threads t).getD []

/-- Embedding of `serveBacklog`, with the content hash (`util.HashBuffer`)
abstracted as a function and the concatenation (`ConcatMessages`) modelled
from the spec as the flat concatenation of the raw stored frames. The
`thread`, `start` and `end` parameters are parsed as decimal unsigned
64-bit integers, the first failure yielding a 400; the ReQL
`Slice(start, end)` with `Default(nil)` clamps out-of-range bounds to an
empty or shortened slice, for a missing thread as well. -/
def serveBacklog (hash : List Char → List Char)
    (threads : Nat → Option (List (List Char)))
    (pthread pstart pend : List Char) : HTTPResult :=
  match goParseUint64 pthread with
  | none => .badRequest
  | some t =>
    match goParseUint64 pstart with
    | none => .badRequest
    | some s =>
      match goParseUint64 pend with
      | none => .badRequest
      | some e =>
        let log := threadLog threads t
        let data := (((log.drop s).take (e - s)).flatten : List Char)
        .ok (hash data) "text/plain; charset=UTF-8" data

/-- C7: when all three parameters parse as decimal unsigned integers, the
response is a 200 whose body is the concatenation of the stored frames with
index in the start–end half-open range and whose `ETag` is that body's
content hash; a range starting at or past the end of the log gives an empty
body with the same 200 shape, never an error status; any parameter that
fails to parse yields a 400. -/
theorem serveBacklog_spec (hash : List Char → List Char)
    (threads : Nat → Option (List (List Char)))
    (pthread pstart pend : List Char) (t s e : Nat) :
    (goParseUint64 pthread = some t → goParseUint64 pstart = some s →
      goParseUint64 pend = some e →
      serveBacklog hash threads pthread pstart pend =
        .ok (hash ((((threadLog threads t).drop s).take (e - s)).flatten))
          "text/plain; charset=UTF-8"
          ((((threadLog threads t).drop s).take (e - s)).flatten) ∧
      ((threadLog threads t).length ≤ s →
        (((threadLog threads t).drop s).take (e - s)).flatten = [])) ∧
    ((goParseUint64 pthread = none ∨ goParseUint64 pstart = none ∨
      goParseUint64 pend = none) →
      serveBacklog hash threads pthread pstart pend = .badRequest) := by
  constructor
  · intro ht hs he
    constructor
    · unfold serveBacklog
      rw [ht, hs, he]
    · intro hlen
      rw [List.drop_eq_nil_of_le hlen]
      simp
  · intro h
    unfold serveBacklog
    rcases h with h | h | h
    · rw [h]
    · cases hpt : goParseUint64 pthread with
      | none => rfl
      | some t2 => rw [h]
    · cases hpt : goParseUint64 pthread with
      | none => rfl
      | some t2 =>
        cases hps : goParseUint64 pstart with
        | none => rfl
        | some s2 => rw [h]

/-- Concrete instances of `serveBacklog`: thread 1 holds frames `"a"`,
`"b"`, `"c"`; the range 0–2 returns `"ab"` with its hash as `ETag`, the
range 5–7 returns an empty body, and a non-numeric `start` yields a 400.
The hash is instantiated with the reversal function. -/
theorem serveBacklog_spec_witness :
    serveBacklog List.reverse
      (fun t => if t = 1 then some [['a'], ['b'], ['c']] else none)
      ['1'] ['0'] ['2'] =
      .ok ['b', 'a'] "text/plain; charset=UTF-8" ['a', 'b'] ∧
    serveBacklog List.reverse
      (fun t => if t = 1 then some [['a'], ['b'], ['c']] else none)
      ['1'] ['5'] ['7'] =
      .ok [] "text/plain; charset=UTF-8" [] ∧
    serveBacklog List.reverse
      (fun t => if t = 1 then some [['a'], ['b'], ['c']] else none)
      ['1'] ['x'] ['7'] = .badRequest := by
  refine ⟨?_, ?_, ?_⟩
  · have h := (serveBacklog_spec List.reverse
      (fun t => if t = 1 then some [['a'], ['b'], ['c']] else none)
      ['1'] ['0'] ['2'] 1 0 2).1 (by decide) (by decide) (by decide)
    exact h.1.trans (by simp [threadLog])
  · have h := (serveBacklog_spec List.reverse
      (fun t => if t = 1 then some [['a'], ['b'], ['c']] else none)
      ['1'] ['5'] ['7'] 1 5 7).1 (by decide) (by decide) (by decide)
    exact h.1.trans (by simp [threadLog])
  · exact (serveBacklog_spec List.reverse
      (fun t => if t = 1 then some [['a'], ['b'], ['c']] else none)
      ['1'] ['x'] ['7'] 1 0 7).2 (Or.inr (Or.inl (by decide)))

/-! ## Connection teardown (`Client.closeConnections`) -/

/-- The gorilla/websocket status code for normal closure. -/
def closeNormalClosure : Nat := 1000

/-- The gorilla/websocket status code for a peer going away. -/
def closeGoingAway : Nat := 1001

/-- The gorilla/websocket status code for invalid frame payload data, used
by the source as its abnormal close code. -/
def closeInvalidFramePayloadData : Nat := 1007

/-- What the client is sent during teardown: the invalid-message notice, if
any, as a type tag with the error text, and the status code of the close
frame. -/
structure CloseOutcome where
  noticeSent : Option (Nat × String)
  closeCode : Nat
deriving DecidableEq

/-- Embedding of the client-visible part of `Client.closeConnections`. The
type switch treats a `*websocket.CloseError` separately: a normal or
going-away code becomes a normal closure, while any other close code falls
through the inner switch, leaving the zero close code and sending no
notice. A nil error closes normally; every other error first gets a
best-effort `messageInvalid` notice carrying its text, then the abnormal
close code. The close frame write is best-effort: its failure, the
`closeSendFails` argument, is discarded. -/
def closeConnections (err : Option GoErr) (closeSendFails : Bool) :
    CloseOutcome :=
  match err with
  | some (.closeErr code) =>
    if code = closeNormalClosure ∨ code = closeGoingAway then
      { noticeSent := none, closeCode := closeNormalClosure }
    else
      { noticeSent := none, closeCode := 0 }
  | none => { noticeSent := none, closeCode := closeNormalClosure }
  | some e =>
    { noticeSent := some (messageInvalid, goErrText e),
      closeCode := closeInvalidFramePayloadData }

/-- C8 counterexample: a client-side close error with protocol-error code
1002 is neither nil nor a normal/going-away closure, yet teardown sends no
invalid-message notice and the close frame carries status code 0 — not the
abnormal code, and not the normal-closure code either — refuting the claim
that every such error yields a notice followed by an abnormal close. -/
theorem closeConnections_claim_counterexample :
    (1002 ≠ closeNormalClosure ∧ 1002 ≠ closeGoingAway) ∧
    (closeConnections (some (.closeErr 1002)) false).noticeSent = none ∧
    (closeConnections (some (.closeErr 1002)) false).closeCode = 0 ∧
    (closeConnections (some (.closeErr 1002)) false).closeCode ≠
      closeInvalidFramePayloadData ∧
    (closeConnections (some (.closeErr 1002)) false).closeCode ≠
      closeNormalClosure := by
  decide

/-- C8 amended: a nil error or a client-side normal/going-away close error
yields a close frame with the normal-closure code and no notice; a
client-side close error with any other code yields no notice and a close
frame with status code 0; every error that is not a close error yields a
best-effort invalid-message notice carrying the error text followed by a
close frame with the abnormal code; and the outcome never depends on
whether sending the close frame fails. -/
theorem closeConnections_spec (err : Option GoErr) (code : Nat)
    (fail1 fail2 : Bool) :
    closeConnections none fail1 =
      { noticeSent := none, closeCode := closeNormalClosure } ∧
    (code = closeNormalClosure ∨ code = closeGoingAway →
      closeConnections (some (.closeErr code)) fail1 =
        { noticeSent := none, closeCode := closeNormalClosure }) ∧
    (code ≠ closeNormalClosure → code ≠ closeGoingAway →
      closeConnections (some (.closeErr code)) fail1 =
        { noticeSent := none, closeCode := 0 }) ∧
    (∀ e : GoErr, (∀ c : Nat, e ≠ .closeErr c) →
      closeConnections (some e) fail1 =
        { noticeSent := some (messageInvalid, goErrText e),
          closeCode := closeInvalidFramePayloadData }) ∧
    closeConnections err fail1 = closeConnections err fail2 := by
  refine ⟨rfl, fun h => ?_, fun h1 h2 => ?_, fun e he => ?_, ?_⟩
  · simp [closeConnections, h]
  · simp [closeConnections, h1, h2]
  · cases e with
    | invalidFrame s => rfl
    | invalidPayload m => rfl
    | closeErr c => exact absurd rfl (he c)
    | other t => rfl
  · cases err with
    | none => rfl
    | some e => cases e <;> rfl

/-- Concrete instances of the amended teardown behavior: a going-away
closure closes normally, and a payload error produces the notice with its
text and the abnormal close code, independently of a failed close-frame
write. -/
theorem closeConnections_spec_witness :
    closeConnections (some (.closeErr 1001)) false =
      { noticeSent := none, closeCode := closeNormalClosure } ∧
    closeConnections (some (.other "boom")) true =
      { noticeSent := some (messageInvalid, "boom"),
        closeCode := closeInvalidFramePayloadData } ∧
    closeConnections (some (.other "boom")) true =
      closeConnections (some (.other "boom")) false :=
  ⟨(closeConnections_spec none 1001 false false).2.1 (Or.inr rfl),
   (closeConnections_spec none 1001 true true).2.2.2.1 (.other "boom")
     (fun c => by simp),
   (closeConnections_spec (some (.other "boom")) 0 true false).2.2.2.2⟩

end Coinchan
